import Mathlib

/-!
Verification of the quantity-rule and pricing core of the B2B Commerce Smart
Order Matrix (Lightning Web Components `b2bAiAssistant` and
`b2bCommerceOrderMatrix`).

Shallow embedding conventions:
* JS numbers (quantities, prices) are modelled as `ℚ`; the values involved are
  exact in double precision, so rational arithmetic is faithful.
* A product field that may be `undefined`/`null` is an `Option ℚ`; the JS
  pattern `field ? parseFloat(field) : default` (where the number `0` is falsy)
  is `jsOr`.
* The JS remainder test `qty % inc !== 0` (for `inc > 1`) holds exactly when
  `qty / inc` is not an integer, i.e. `(qty / inc).den ≠ 1`.
* `Math.ceil` is `Int.ceil`, `Math.round` is `round` (both round ties the same
  way as JS for the values at hand), and `Math.round(x*100)/100` is `round2`.
* Maps keyed by product id are functions `String → Option ℚ`; an absent key is
  `none`.  The component stores staged quantities as strings (`String(n)`);
  the model keeps the numeric value, which is what every reader parses back.
-/

namespace B2B

/-- JS-style defaulted field read `field ? parseFloat(field) : d`:
both an absent value and the (falsy) number `0` yield the default `d`. -/
def jsOr (o : Option ℚ) (d : ℚ) : ℚ :=
  match o with
  | none => d
  | some x => if x = 0 then d else x

/-- One volume-price tier `{min, max?, price}` of `priceRanges`. -/
structure Tier where
  min : ℚ
  max : Option ℚ
  price : ℚ
deriving DecidableEq

/-- A catalog row as consumed by both components.  `stock := none` models the
`undefined`/`null`/`'null'` cases that the source treats as untracked stock;
`cartQty` is the committed cart quantity and `qtyValue` the staged quantity
attached to the product object when the assistant reads it. -/
structure Product where
  name : String
  sku : String
  unitPrice : ℚ
  listPrice : Option ℚ
  priceRanges : List Tier
  minQty : Option ℚ
  maxQty : Option ℚ
  increment : Option ℚ
  stock : Option ℚ
  cartQty : Option ℚ
  qtyValue : Option ℚ
deriving DecidableEq

/-- `product.minQty ? parseFloat(product.minQty) : 1` (b2bAiAssistant line 84,
b2bCommerceOrderMatrix line 272). -/
def minQtyOf (p : Product) : ℚ := jsOr p.minQty 1

/-- `product.maxQty ? parseFloat(product.maxQty) : 999999` (line 85 / 273). -/
def maxQtyOf (p : Product) : ℚ := jsOr p.maxQty 999999

/-- `product.increment ? parseFloat(product.increment) : 1` (line 86 / 274). -/
def incrementOf (p : Product) : ℚ := jsOr p.increment 1

/-- `isInfiniteStock ? 999999 : parseFloat(product.stock)` (lines 89-90 /
275-276). -/
def physicalStockOf (p : Product) : ℚ :=
  match p.stock with
  | none => 999999
  | some s => s

/-- `product.cartQty ? parseFloat(product.cartQty) : 0` (line 91). -/
def inCartOf (p : Product) : ℚ := jsOr p.cartQty 0

/-- `product.qtyValue ? parseFloat(product.qtyValue) : 0` (line 92). -/
def selectedOf (p : Product) : ℚ := jsOr p.qtyValue 0

/-- `Math.max(0, physicalStock - inCart - selected)` (line 93). -/
def availableStockOf (p : Product) : ℚ :=
  Max.max 0 (physicalStockOf p - inCartOf p - selectedOf p)

/-- Minimum rule of `calculateValidQuantity` (lines 101-104):
`if (qty < min) { qty = min; reasons.push(...) }`. -/
def applyMinRule (minQ qty : ℚ) : ℚ × List String :=
  if qty < minQ then (minQ, ["Minimum quantity is " ++ toString minQ])
  else (qty, [])

/-- Increment rule (lines 107-113): for `inc > 1`, when `qty % inc !== 0`,
`qty = Math.ceil(qty / inc) * inc`. -/
def applyIncRule (incQ qty : ℚ) : ℚ × List String :=
  if 1 < incQ ∧ (qty / incQ).den ≠ 1 then
    (((⌈qty / incQ⌉ : ℤ) : ℚ) * incQ, ["Adjusted to multiple of " ++ toString incQ])
  else (qty, [])

/-- Maximum rule (lines 116-119): `if (qty > max) { qty = max; ... }`. -/
def applyMaxRule (maxQ qty : ℚ) : ℚ × List String :=
  if maxQ < qty then (maxQ, ["Maximum allowed per order is " ++ toString maxQ])
  else (qty, [])

/-- Stock rule (lines 122-130): clamp to `availableStock`, phrasing the reason
positively when the request carried the take-maximum sentinel. -/
def applyStockRule (avail qty : ℚ) (isMaxRequest : Bool) : ℚ × List String :=
  if avail < qty then
    (avail,
      [if isMaxRequest then "Added all available stock (" ++ toString avail ++ ")"
       else "Limited by available stock (" ++ toString avail ++ " remaining)"])
  else (qty, [])

/-- Result shape of `calculateValidQuantity` (lines 141-145). -/
structure ValidationResult where
  finalQty : ℚ
  isAdjusted : Bool
  reasons : List String
deriving DecidableEq

/-- `b2bAiAssistant.calculateValidQuantity` (lines 79-146): sequentially apply
the minimum, increment, maximum and stock rules to the requested quantity,
accumulating adjustment reasons.  The take-maximum sentinel is a requested
quantity greater than 9,000,000 (line 96). -/
def calculateValidQuantity (product : Product) (requestedQty : ℚ) : ValidationResult :=
  let s1 := applyMinRule (minQtyOf product) requestedQty
  let s2 := applyIncRule (incrementOf product) s1.1
  let s3 := applyMaxRule (maxQtyOf product) s2.1
  let s4 := applyStockRule (availableStockOf product) s3.1 (decide (9000000 < requestedQty))
  let reasons := s1.2 ++ s2.2 ++ s3.2 ++ s4.2
  { finalQty := s4.1
    isAdjusted := decide (s4.1 ≠ requestedQty) || !reasons.isEmpty
    reasons := reasons }

/-- The per-item dispatch decision of `b2bAiAssistant.handleSend` (lines
480-525) for an agent item acting on a product present in the catalog:
computes the raw delta from the action (`set` subtracts the current staged
quantity, `remove` negates), validates a positive delta (validating the raw
quantity instead when it carries the take-maximum sentinel), and returns the
quantity dispatched in the `addproduct` event, or `none` when nothing is
dispatched. -/
def handleSendItem (realDataProduct : Product) (action : String) (quantity : ℤ) : Option ℚ :=
  let qtyRaw : ℚ := (quantity : ℚ)
  let currentSelected := selectedOf realDataProduct
  let finalQty : ℚ :=
    if action = "set" then qtyRaw - currentSelected
    else if action = "remove" then -qtyRaw
    else qtyRaw
  if 0 < finalQty ∧ action ≠ "search" then
    let qtyToValidate := if 9000000 < qtyRaw then qtyRaw else finalQty
    let validation := calculateValidQuantity realDataProduct qtyToValidate
    if 0 < validation.finalQty then some validation.finalQty else none
  else if finalQty < 0 ∧ action ≠ "search" then some finalQty
  else none

/-- Outcome of processing one confirmed file row in
`b2bAiAssistant.handleConfirmFile` (lines 332-358): either an `addproduct`
dispatch (with an adjustment log when the quantity was adjusted), or a
"could not add" log entry carrying the accumulated reasons. -/
inductive FileItemOutcome where
  | dispatched (sku : String) (quantity : ℚ) (adjustmentLog : Option (List String))
  | couldNotAdd (name : String) (reasons : List String)
deriving DecidableEq

/-- Per-item body of `handleConfirmFile` (lines 336-358). -/
def processFileItem (realDataProduct : Product) (quantityRequested : ℚ) : FileItemOutcome :=
  let validation := calculateValidQuantity realDataProduct quantityRequested
  if 0 < validation.finalQty then
    FileItemOutcome.dispatched realDataProduct.sku validation.finalQty
      (if validation.isAdjusted then some validation.reasons else none)
  else
    FileItemOutcome.couldNotAdd realDataProduct.name validation.reasons

/-- `Math.round(x * 100) / 100`, the 2-decimal rounding used on the working
price in `calculateFinalPrice` (b2bCommerceOrderMatrix line 447). -/
def round2 (q : ℚ) : ℚ := ((round (q * 100) : ℤ) : ℚ) / 100

/-- The tier-selection expression shared by `calculateFinalPrice` (line 436)
and `generateDynamicTiers` (line 465):
`tiers.filter(t => quantity >= t.min).sort((a, b) => b.min - a.min)[0]`,
i.e. among the tiers whose `min` does not exceed the quantity, the one with
the greatest `min` (first such tier on ties, as JS sort is stable). -/
def selectTier (tiers : List Tier) (quantity : ℚ) : Option Tier :=
  (tiers.filter (fun t => decide (t.min ≤ quantity))).argmax (fun t => t.min)

/-- Result of `calculateFinalPrice` (lines 449-454).  `unitPrice` and
`listPrice` are the numeric working values; the component renders them with
`toFixed(2)`. -/
structure PriceResult where
  unitPrice : ℚ
  listPrice : ℚ
  showListPrice : Bool
  isPromotional : Bool
deriving DecidableEq

/-- `b2bCommerceOrderMatrix.calculateFinalPrice` (lines 430-455): tier price
for the evaluated quantity, promotional ratio applied only when the promo
price is strictly below the base price, and the strikethrough flag
`showListPrice = listPrice > Math.round(currentPrice*100)/100`. -/
def calculateFinalPrice (details : Product) (quantity : ℚ) (promoPrice : Option ℚ) :
    PriceResult :=
  let basePrice := details.unitPrice
  let tierPrice :=
    if details.priceRanges.length ≠ 0 ∧ 0 < quantity then
      match selectTier details.priceRanges quantity with
      | some t => t.price
      | none => basePrice
    else basePrice
  let promoStep :=
    match promoPrice with
    | some pp =>
      if 0 < basePrice ∧ pp < basePrice then (tierPrice * (pp / basePrice), true)
      else (tierPrice, false)
    | none => (tierPrice, false)
  let listPrice := jsOr details.listPrice basePrice
  { unitPrice := promoStep.1
    listPrice := listPrice
    showListPrice := decide (round2 promoStep.1 < listPrice)
    isPromotional := promoStep.2 }

/-- The per-line view model fields of `buildGrid` that the claims are about
(lines 298-318). -/
structure LineModel where
  qtyValue : ℚ
  lineMin : ℚ
  lineMax : ℚ
  lineInc : ℚ
  finalLimit : ℚ
  isError : Bool
  displayUnitPrice : ℚ
  showListPrice : Bool
deriving DecidableEq

/-- One line of `b2bCommerceOrderMatrix.buildGrid` (lines 265-318), given the
resolved staged quantity `currentInputVal`, cart quantity `inCart` and
promotional price for the product: error flags, the add limit
`finalLimit = Math.min(Math.max(0, max - inCart), Math.max(0, physicalStock - inCart))`
(line 289), and the display pricing evaluated at `(currentInputVal || 1) + inCart`. -/
def buildLine (prod : Product) (currentInputVal inCart : ℚ) (promoPrice : Option ℚ) :
    LineModel :=
  let minQ := jsOr prod.minQty 1
  let maxQ := jsOr prod.maxQty 999999
  let incQ := jsOr prod.increment 1
  let physicalStock := physicalStockOf prod
  let stockError := Max.max 0 (physicalStock - inCart) < currentInputVal
  let ratio := currentInputVal / incQ
  let ruleError :=
    0 < currentInputVal ∧
      (currentInputVal < minQ ∨ (maxQ ≠ 0 ∧ maxQ < currentInputVal) ∨
        1 / 10000 < |ratio - ((round ratio : ℤ) : ℚ)|)
  let priceCalc :=
    calculateFinalPrice prod ((if currentInputVal = 0 then 1 else currentInputVal) + inCart)
      promoPrice
  { qtyValue := currentInputVal
    lineMin := minQ
    lineMax := maxQ
    lineInc := incQ
    finalLimit := Min.min (Max.max 0 (maxQ - inCart)) (Max.max 0 (physicalStock - inCart))
    isError := decide stockError || decide ruleError
    displayUnitPrice := priceCalc.unitPrice
    showListPrice := priceCalc.showListPrice }

/-- `b2bCommerceOrderMatrix.updateQty` (lines 505-510): clamp negatives to 0,
delete the entry when the new value is 0, otherwise store it. -/
def updateQty (inputQty : String → Option ℚ) (prodId : String) (rawVal : ℚ) :
    String → Option ℚ :=
  let newVal := if rawVal < 0 then 0 else rawVal
  if newVal = 0 then Function.update inputQty prodId none
  else Function.update inputQty prodId (some newVal)

/-- The `inputQty` mutation of `b2bCommerceOrderMatrix.handleAiAddProduct`
(lines 336-346): add the agent delta to the current staged quantity, clamp at
0, delete the entry when the result is 0. -/
def handleAiAddProduct (inputQty : String → Option ℚ) (prodId : String) (quantity : ℚ) :
    String → Option ℚ :=
  let currentQty := (inputQty prodId).getD 0
  let rawNewQty := currentQty + quantity
  let newQty := Max.max 0 rawNewQty
  if newQty = 0 then Function.update inputQty prodId none
  else Function.update inputQty prodId (some newQty)

/-- The `inputQty` rebuild of `b2bCommerceOrderMatrix.loadOrderProducts`
(lines 217-224 and 236-242): reset the map, then store each cached order
item's quantity verbatim (`this.inputQty[item.productId] =
item.quantity.toString()`). -/
def loadOrderProducts (cachedItems : List (String × ℚ)) : String → Option ℚ :=
  cachedItems.foldl (fun m item => Function.update m item.1 (some item.2)) fun _ => none

/-- Concrete product for Scenario E: physical stock 3, committed cart quantity
1, no staged quantity, all rule fields at their defaults. -/
def prodTakeMax : Product :=
  { name := "Widget", sku := "W1", unitPrice := 10, listPrice := none, priceRanges := []
    minQty := none, maxQty := none, increment := none
    stock := some 3, cartQty := some 1, qtyValue := none }

/-- Concrete product with minimum 3, ample stock and a prior staged quantity
of 5, used to probe the `set` action. -/
def prodSetMinThree : Product :=
  { name := "SetProbe", sku := "P1", unitPrice := 10, listPrice := none, priceRanges := []
    minQty := some 3, maxQty := none, increment := none
    stock := some 100, cartQty := none, qtyValue := some 5 }

/-- Input-quantity map holding a staged quantity of 5 for product `P1`. -/
def inputQtyP1 : String → Option ℚ := fun k => if k = "P1" then some 5 else none

/-- Concrete product with minimum 2 and ample stock. -/
def prodMinTwo : Product :=
  { name := "MinProbe", sku := "M1", unitPrice := 10, listPrice := none, priceRanges := []
    minQty := some 2, maxQty := none, increment := none
    stock := some 100, cartQty := none, qtyValue := none }

/-- Concrete product whose list price 10.001 rounds to its unit price 10. -/
def prodListTenOh1 : Product :=
  { name := "ListProbe", sku := "L1", unitPrice := 10, listPrice := some (10001 / 1000)
    priceRanges := [], minQty := none, maxQty := none, increment := none
    stock := none, cartQty := none, qtyValue := none }

/-- Concrete product with base unit price 10 and no other data. -/
def prodBaseTen : Product :=
  { name := "Base", sku := "B1", unitPrice := 10, listPrice := none, priceRanges := []
    minQty := none, maxQty := none, increment := none
    stock := none, cartQty := none, qtyValue := none }

/-- Concrete product with zero physical stock. -/
def prodNoStock : Product :=
  { name := "Empty", sku := "E1", unitPrice := 10, listPrice := none, priceRanges := []
    minQty := none, maxQty := none, increment := none
    stock := some 0, cartQty := none, qtyValue := none }

/-- Concrete two-tier ladder: 1+ at 100, 10+ at 90. -/
def tiersEx : List Tier := [⟨1, none, 100⟩, ⟨10, none, 90⟩]

/-- The stock clamp is the last rule applied, so its output never exceeds the
available stock. -/
theorem applyStockRule_fst_le (avail qty : ℚ) (isMaxRequest : Bool) :
    (applyStockRule avail qty isMaxRequest).1 ≤ avail := by
  rcases lt_or_le avail qty with h | h
  · simp [applyStockRule, h]
  · simp [applyStockRule, not_lt.mpr h, h]

/-- Storing `some v` at `pId` when `v ≠ 0` and deleting when `v = 0` keeps the
map free of zero entries. -/
theorem store_or_delete_ne_zero (m : String → Option ℚ) (hm : ∀ k, m k ≠ some 0)
    (pId k : String) (v : ℚ) :
    (if v = 0 then Function.update m pId none else Function.update m pId (some v)) k ≠
      some 0 := by
  split_ifs with h
  · rcases eq_or_ne k pId with hk | hk
    · subst hk
      simp
    · simpa [Function.update_noteq hk] using hm k
  · rcases eq_or_ne k pId with hk | hk
    · subst hk
      simp [Function.update_same, h]
    · simpa [Function.update_noteq hk] using hm k

/-- C10: for every product and requested quantity, the validated quantity
never exceeds `max(0, physicalStock − inCartQty − stagedQty)`, because the
stock clamp is applied last in `calculateValidQuantity`. -/
theorem c10_stock_clamp_bound (p : Product) (q : ℚ) :
    (calculateValidQuantity p q).finalQty ≤
      Max.max 0 (physicalStockOf p - inCartOf p - selectedOf p) := by
  simp only [calculateValidQuantity]
  exact applyStockRule_fst_le _ _ _

/-- C6: every line view model built by `buildGrid` has
`finalLimit = min(max(0, max − inCart), max(0, physicalStock − inCart))`,
hence `finalLimit ≥ 0` always. -/
theorem c6_finalLimit_formula (prod : Product) (currentInputVal inCart : ℚ)
    (promoPrice : Option ℚ) :
    (buildLine prod currentInputVal inCart promoPrice).finalLimit =
      Min.min (Max.max 0 (jsOr prod.maxQty 999999 - inCart))
        (Max.max 0 (physicalStockOf prod - inCart)) ∧
    0 ≤ (buildLine prod currentInputVal inCart promoPrice).finalLimit :=
  ⟨rfl, le_min (le_max_left 0 _) (le_max_left 0 _)⟩

/-- C4 counterexample: with list price 10.001 and working price 10.00, the
code sets `showListPrice = true`, although the list price rounded to 2
decimals (10.00) does not strictly exceed the working price rounded to 2
decimals (10.00): the code compares the unrounded list price. -/
theorem c4_claim_counterexample :
    (calculateFinalPrice prodListTenOh1 1 none).showListPrice = true ∧
    ¬ round2 ((calculateFinalPrice prodListTenOh1 1 none).unitPrice) <
        round2 ((calculateFinalPrice prodListTenOh1 1 none).listPrice) := by
  constructor
  · norm_num [calculateFinalPrice, prodListTenOh1, jsOr, round2, round_eq, selectTier]
  · norm_num [calculateFinalPrice, prodListTenOh1, jsOr, round2, round_eq, selectTier]

/-- C4 (amended): `showListPrice` is true exactly when the resolved list
price, unrounded, strictly exceeds the working unit price rounded to 2
decimals. -/
theorem c4_showListPrice_iff (details : Product) (quantity : ℚ) (promoPrice : Option ℚ) :
    ((calculateFinalPrice details quantity promoPrice).showListPrice = true ↔
      round2 ((calculateFinalPrice details quantity promoPrice).unitPrice) <
        (calculateFinalPrice details quantity promoPrice).listPrice) := by
  simp only [calculateFinalPrice, decide_eq_true_eq]

/-- C7: a promotional price that is not strictly below the base unit price is
ignored: the line is not marked promotional and the unit price is the one
computed without the promotion. -/
theorem c7_promo_never_increases (details : Product) (quantity promoPrice : ℚ)
    (h : details.unitPrice ≤ promoPrice) :
    (calculateFinalPrice details quantity (some promoPrice)).isPromotional = false ∧
    (calculateFinalPrice details quantity (some promoPrice)).unitPrice =
      (calculateFinalPrice details quantity none).unitPrice := by
  have hcond : ¬(0 < details.unitPrice ∧ promoPrice < details.unitPrice) := by
    rintro ⟨-, h2⟩
    exact absurd h (not_le.mpr h2)
  constructor <;> simp [calculateFinalPrice, hcond]

/-- Witness for C7 at base price 10 and promotional price 12. -/
theorem c7_promo_never_increases_witness :
    prodBaseTen.unitPrice ≤ 12 ∧
    ((calculateFinalPrice prodBaseTen 1 (some 12)).isPromotional = false ∧
      (calculateFinalPrice prodBaseTen 1 (some 12)).unitPrice =
        (calculateFinalPrice prodBaseTen 1 none).unitPrice) :=
  ⟨by norm_num [prodBaseTen],
   c7_promo_never_increases prodBaseTen 1 12 (by norm_num [prodBaseTen])⟩

/-- C2: a take-maximum request (sentinel quantity 9,000,001 > 9,000,000) on a
product with stock 3, cart quantity 1, zero staged quantity and default rules
dispatches a final delta of 2, with the reason
"Added all available stock (2)" among the accumulated reasons. -/
theorem c2_take_maximum_scenario :
    handleSendItem prodTakeMax "add" 9000001 = some 2 ∧
    "Added all available stock (2)" ∈ (calculateValidQuantity prodTakeMax 9000001).reasons := by
  constructor
  · simp only [handleSendItem]
    simp
    norm_num [calculateValidQuantity, applyMinRule, applyIncRule, applyMaxRule,
      applyStockRule, minQtyOf, maxQtyOf, incrementOf, availableStockOf, physicalStockOf,
      inCartOf, selectedOf, jsOr, prodTakeMax]
  · norm_num [calculateValidQuantity, applyMinRule, applyIncRule, applyMaxRule, applyStockRule,
      minQtyOf, maxQtyOf, incrementOf, availableStockOf, physicalStockOf, inCartOf, selectedOf,
      jsOr, prodTakeMax]
    right
    decide

/-- C1 counterexample: for the product with minimum 3, stock 100 and staged
quantity 5, a `set` intent to 6 dispatches a delta of 3 (the delta 1 is raised
to the minimum), although the claim predicts
`finalAbsoluteQty = constrained(6) = 6` and hence delta `6 − 5 = 1`:
the resulting absolute staged quantity is 8, not 6. -/
theorem c1_set_claim_counterexample :
    handleSendItem prodSetMinThree "set" 6 = some 3 ∧
    (calculateValidQuantity prodSetMinThree 6).finalQty = 6 ∧
    (3 : ℚ) ≠
      (calculateValidQuantity prodSetMinThree 6).finalQty - selectedOf prodSetMinThree := by
  refine ⟨?_, ?_, ?_⟩
  · simp only [handleSendItem]
    simp
    norm_num [calculateValidQuantity, applyMinRule, applyIncRule, applyMaxRule,
      applyStockRule, minQtyOf, maxQtyOf, incrementOf, availableStockOf, physicalStockOf,
      inCartOf, selectedOf, jsOr, prodSetMinThree]
  · norm_num [calculateValidQuantity, applyMinRule, applyIncRule, applyMaxRule,
      applyStockRule, minQtyOf, maxQtyOf, incrementOf, availableStockOf, physicalStockOf,
      inCartOf, selectedOf, jsOr, prodSetMinThree]
  · norm_num [calculateValidQuantity, applyMinRule, applyIncRule, applyMaxRule,
      applyStockRule, minQtyOf, maxQtyOf, incrementOf, availableStockOf, physicalStockOf,
      inCartOf, selectedOf, jsOr, prodSetMinThree]

/-- C1 (amended): resolving a `set` intent to `n` validates the delta
`n − s` (s the prior staged quantity), not the absolute `n`: when that delta
is positive and below the sentinel, the dispatched delta is
`calculateValidQuantity(product, n − s).finalQty`, and folding it into the
input-quantity map yields the absolute staged quantity `s` plus that
constrained delta. -/
theorem c1_set_validates_delta (p : Product) (inputQty : String → Option ℚ)
    (prodId : String) (n : ℤ) (hmap : inputQty prodId = some (selectedOf p))
    (hsel : 0 ≤ selectedOf p) (hdelta : 0 < (n : ℚ) - selectedOf p)
    (hsent : (n : ℚ) ≤ 9000000)
    (hpos : 0 < (calculateValidQuantity p ((n : ℚ) - selectedOf p)).finalQty) :
    handleSendItem p "set" n =
      some ((calculateValidQuantity p ((n : ℚ) - selectedOf p)).finalQty) ∧
    handleAiAddProduct inputQty prodId
        ((calculateValidQuantity p ((n : ℚ) - selectedOf p)).finalQty) prodId =
      some (selectedOf p + (calculateValidQuantity p ((n : ℚ) - selectedOf p)).finalQty) := by
  constructor
  · have hne : ¬(9000000 : ℚ) < (n : ℚ) := not_lt.mpr hsent
    simp only [handleSendItem]
    simp [hdelta, hne, hpos]
  · have hsum : 0 < selectedOf p + (calculateValidQuantity p ((n : ℚ) - selectedOf p)).finalQty :=
      add_pos_of_nonneg_of_pos hsel hpos
    have hmax :
        Max.max 0
            (selectedOf p + (calculateValidQuantity p ((n : ℚ) - selectedOf p)).finalQty) =
          selectedOf p + (calculateValidQuantity p ((n : ℚ) - selectedOf p)).finalQty :=
      max_eq_right hsum.le
    simp [handleAiAddProduct, hmap, hmax, hsum.ne']

/-- Witness for the amended C1 at the concrete product with minimum 3, staged
quantity 5 and a `set` intent to 6: the dispatched delta is the constrained
delta and the map ends at `5 + constrained(1)`. -/
theorem c1_set_validates_delta_witness :
    (0 : ℚ) < ((6 : ℤ) : ℚ) - selectedOf prodSetMinThree ∧
    0 <
      (calculateValidQuantity prodSetMinThree
          (((6 : ℤ) : ℚ) - selectedOf prodSetMinThree)).finalQty ∧
    (handleSendItem prodSetMinThree "set" 6 =
        some ((calculateValidQuantity prodSetMinThree
            (((6 : ℤ) : ℚ) - selectedOf prodSetMinThree)).finalQty) ∧
      handleAiAddProduct inputQtyP1 "P1"
          ((calculateValidQuantity prodSetMinThree
              (((6 : ℤ) : ℚ) - selectedOf prodSetMinThree)).finalQty) "P1" =
        some (selectedOf prodSetMinThree +
          (calculateValidQuantity prodSetMinThree
              (((6 : ℤ) : ℚ) - selectedOf prodSetMinThree)).finalQty)) :=
  ⟨by norm_num [selectedOf, jsOr, prodSetMinThree],
   by norm_num [calculateValidQuantity, applyMinRule, applyIncRule, applyMaxRule,
      applyStockRule, minQtyOf, maxQtyOf, incrementOf, availableStockOf, physicalStockOf,
      inCartOf, selectedOf, jsOr, prodSetMinThree],
   c1_set_validates_delta prodSetMinThree inputQtyP1 "P1" 6
     (by norm_num [inputQtyP1, selectedOf, jsOr, prodSetMinThree])
     (by norm_num [selectedOf, jsOr, prodSetMinThree])
     (by norm_num [selectedOf, jsOr, prodSetMinThree])
     (by norm_num)
     (by norm_num [calculateValidQuantity, applyMinRule, applyIncRule, applyMaxRule,
        applyStockRule, minQtyOf, maxQtyOf, incrementOf, availableStockOf, physicalStockOf,
        inCartOf, selectedOf, jsOr, prodSetMinThree])⟩

/-- C3 counterexample: a candidate of exactly 0 on a product with minimum 2 IS
raised to the minimum with reason "Minimum quantity is 2", because the code's
minimum rule has no positivity guard. -/
theorem c3_min_claim_counterexample :
    (calculateValidQuantity prodMinTwo 0).finalQty = 2 ∧
    (calculateValidQuantity prodMinTwo 0).reasons = ["Minimum quantity is 2"] := by
  constructor
  · norm_num [calculateValidQuantity, applyMinRule, applyIncRule, applyMaxRule, applyStockRule,
      minQtyOf, maxQtyOf, incrementOf, availableStockOf, physicalStockOf, inCartOf, selectedOf,
      jsOr, prodMinTwo]
  · norm_num [calculateValidQuantity, applyMinRule, applyIncRule, applyMaxRule, applyStockRule,
      minQtyOf, maxQtyOf, incrementOf, availableStockOf, physicalStockOf, inCartOf, selectedOf,
      jsOr, prodMinTwo]
    decide

/-- C3 (amended): the minimum rule fires exactly when the candidate is
strictly below the minimum, with no positivity guard; whenever it fires the
reason "Minimum quantity is {min}" is accumulated in the result. -/
theorem c3_min_raise_iff_below (p : Product) (q : ℚ) :
    ((applyMinRule (minQtyOf p) q).2 ≠ [] ↔ q < minQtyOf p) ∧
    (q < minQtyOf p →
      ("Minimum quantity is " ++ toString (minQtyOf p)) ∈
        (calculateValidQuantity p q).reasons) := by
  constructor
  · unfold applyMinRule
    split_ifs with h <;> simp [h]
  · intro h
    have h1 : applyMinRule (minQtyOf p) q =
        (minQtyOf p, ["Minimum quantity is " ++ toString (minQtyOf p)]) := by
      unfold applyMinRule
      rw [if_pos h]
    simp only [calculateValidQuantity, h1]
    simp

/-- Witness for the amended C3: candidate 0 against minimum 2. -/
theorem c3_min_raise_iff_below_witness :
    (0 : ℚ) < minQtyOf prodMinTwo ∧
    ("Minimum quantity is " ++ toString (minQtyOf prodMinTwo)) ∈
      (calculateValidQuantity prodMinTwo 0).reasons :=
  ⟨by norm_num [minQtyOf, jsOr, prodMinTwo],
   (c3_min_raise_iff_below prodMinTwo 0).2 (by norm_num [minQtyOf, jsOr, prodMinTwo])⟩

/-- C5 counterexample: loading a past order whose cached items contain a
zero-quantity line stores the staged quantity 0 in the input-quantity map
verbatim. -/
theorem c5_claim_counterexample :
    loadOrderProducts [("p1", 0)] "p1" = some 0 := by
  simp [loadOrderProducts]

/-- C5 (amended): manual edits (`updateQty`, also reached by the stepper
handlers) and agent-issued deltas (`handleAiAddProduct`) never leave a staged
quantity of exactly zero in the map — a zero result removes the entry;
`loadOrderProducts`, however, copies order quantities verbatim. -/
theorem c5_no_zero_after_edit (inputQty : String → Option ℚ)
    (hm : ∀ k, inputQty k ≠ some 0) (prodId : String) (rawVal delta : ℚ) (k : String) :
    updateQty inputQty prodId rawVal k ≠ some 0 ∧
    handleAiAddProduct inputQty prodId delta k ≠ some 0 :=
  ⟨store_or_delete_ne_zero inputQty hm prodId k _,
   store_or_delete_ne_zero inputQty hm prodId k _⟩

/-- Witness for the amended C5 on the empty map. -/
theorem c5_no_zero_after_edit_witness :
    updateQty (fun _ => none) "p1" 0 "p1" ≠ some 0 ∧
    handleAiAddProduct (fun _ => none) "p1" 2 "p1" ≠ some 0 :=
  c5_no_zero_after_edit (fun _ => none) (fun k => by simp) "p1" 0 2 "p1"

/-- C8: `selectTier` picks the tier with the greatest `minQty` not exceeding
the evaluated quantity, and increasing the evaluated quantity never decreases
the selected tier's `minQty`. -/
theorem c8_tier_selection_monotone (tiers : List Tier) (q q' : ℚ) (t : Tier)
    (ht : selectTier tiers q = some t) :
    (t ∈ tiers ∧ t.min ≤ q ∧ ∀ u ∈ tiers, u.min ≤ q → u.min ≤ t.min) ∧
    (q ≤ q' → ∃ t', selectTier tiers q' = some t' ∧ t.min ≤ t'.min) := by
  have htm : t ∈ (tiers.filter fun u => decide (u.min ≤ q)).argmax fun u => u.min :=
    Option.mem_def.mpr ht
  have htf : t ∈ tiers.filter fun u => decide (u.min ≤ q) := List.argmax_mem htm
  have ht1 : t ∈ tiers := (List.mem_filter.mp htf).1
  have ht2 : t.min ≤ q := by simpa using (List.mem_filter.mp htf).2
  refine ⟨⟨ht1, ht2, ?_⟩, ?_⟩
  · intro u hu huq
    have huf : u ∈ tiers.filter fun v => decide (v.min ≤ q) :=
      List.mem_filter.mpr ⟨hu, by simpa using huq⟩
    exact List.le_of_mem_argmax huf htm
  · intro hqq
    have htf2 : t ∈ tiers.filter fun v => decide (v.min ≤ q') :=
      List.mem_filter.mpr ⟨ht1, by simpa using le_trans ht2 hqq⟩
    rcases hh : (tiers.filter fun v => decide (v.min ≤ q')).argmax fun u => u.min with - | t'
    · exact absurd (List.argmax_eq_none.mp hh) (List.ne_nil_of_mem htf2)
    · exact ⟨t', hh, List.le_of_mem_argmax htf2 (Option.mem_def.mpr hh)⟩

/-- Witness for C8 on the concrete ladder `[1+ @ 100, 10+ @ 90]` at
quantities 12 and 15. -/
theorem c8_tier_selection_monotone_witness :
    selectTier tiersEx 12 = some ⟨10, none, 90⟩ ∧
    ((12 : ℚ) ≤ 15 ∧
      ∃ t', selectTier tiersEx 15 = some t' ∧ (Tier.mk 10 none 90).min ≤ t'.min) :=
  ⟨by decide,
   by norm_num,
   (c8_tier_selection_monotone tiersEx 12 15 ⟨10, none, 90⟩ (by decide)).2 (by norm_num)⟩

/-- C9: intent resolution is a total function (never throws); whenever the
fully constrained quantity is ≤ 0 the confirmed file row produces no dispatch
but a "could not add" report carrying the accumulated reasons. -/
theorem c9_unsatisfiable_zero_delta (p : Product) (q : ℚ)
    (h : (calculateValidQuantity p q).finalQty ≤ 0) :
    processFileItem p q =
      FileItemOutcome.couldNotAdd p.name (calculateValidQuantity p q).reasons := by
  simp only [processFileItem]
  rw [if_neg (not_lt.mpr h)]

/-- Witness for C9: requesting 5 units of an out-of-stock product clamps to 0
and yields the could-not-add report. -/
theorem c9_unsatisfiable_zero_delta_witness :
    (calculateValidQuantity prodNoStock 5).finalQty ≤ 0 ∧
    processFileItem prodNoStock 5 =
      FileItemOutcome.couldNotAdd prodNoStock.name (calculateValidQuantity prodNoStock 5).reasons :=
  ⟨by norm_num [calculateValidQuantity, applyMinRule, applyIncRule, applyMaxRule, applyStockRule,
      minQtyOf, maxQtyOf, incrementOf, availableStockOf, physicalStockOf, inCartOf, selectedOf,
      jsOr, prodNoStock],
   c9_unsatisfiable_zero_delta prodNoStock 5
     (by norm_num [calculateValidQuantity, applyMinRule, applyIncRule, applyMaxRule,
        applyStockRule, minQtyOf, maxQtyOf, incrementOf, availableStockOf, physicalStockOf,
        inCartOf, selectedOf, jsOr, prodNoStock])⟩

end B2B
